import Mathlib

/-!
Verification of the wikipedia-extractor repository (two Python scripts:
`src/query_wikidata.py`, the Name Resolver, and `src/extract_wikipedia.py`,
the Article Fetcher) against its natural-language specification.

The scripts are shallowly embedded: JSON values become an inductive type,
HTTP and filesystem outcomes become explicit parameters, Python exceptions
become `Except`, writes become explicit traces of (path, content) pairs,
and log calls become explicit event lists.
-/

namespace WikipediaExtractor

/-- JSON values as produced by `response.json()` in the Python sources. -/
inductive Json where
  | null
  | bool (b : Bool)
  | str (s : String)
  | arr (items : List Json)
  | obj (fields : List (String × Json))

/-- Python truthiness (`if not data:`) of a JSON-decoded value. -/
def pyFalsy : Json → Bool
  | .null => true
  | .bool b => !b
  | .str s => s.isEmpty
  | .arr items => items.isEmpty
  | .obj fields => fields.isEmpty

/-- Python subscription `j[key]`: KeyError on a dict missing the key,
TypeError when `j` is not a dict. -/
def dictGet (j : Json) (key : String) : Except String Json :=
  match j with
  | .obj fields =>
    match fields.lookup key with
    | some v => .ok v
    | none => .error "KeyError"
  | _ => .error "TypeError"

/-- Python iteration `for item in j`: lists yield elements, dicts yield
their keys, strings yield one-character strings, others raise TypeError. -/
def pyIter : Json → Except String (List Json)
  | .arr items => .ok items
  | .obj fields => .ok (fields.map (fun kv => Json.str kv.1))
  | .str s => .ok (s.toList.map (fun c => Json.str (String.mk [c])))
  | _ => .error "TypeError"

/-- Python `str.split(sep)` for a one-character separator, on char lists. -/
def pySplitChar (sep : Char) : List Char → List (List Char)
  | [] => [[]]
  | c :: rest =>
    if c = sep then [] :: pySplitChar sep rest
    else
      match pySplitChar sep rest with
      | [] => [[c]]
      | l :: ls => (c :: l) :: ls

/-- Embeds `name.split("/")[-1]` from `extract_citynames`. -/
def lastSegment (s : String) : String :=
  String.mk ((pySplitChar '/' s.toList).getLastD [])

/-- Python list comprehension over a fallible body: the first exception
aborts the whole comprehension. -/
def mapExcept (f : α → Except String β) : List α → Except String (List β)
  | [] => .ok []
  | a :: l =>
    match f a with
    | .error e => .error e
    | .ok b =>
      match mapExcept f l with
      | .error e => .error e
      | .ok bs => .ok (b :: bs)

/-- Embeds `item['article']['value']` from `extract_citynames`. -/
def bindingLink (item : Json) : Except String Json :=
  match dictGet item "article" with
  | .error e => .error e
  | .ok a => dictGet a "value"

/-- Embeds `name.split("/")[-1]`; `.split` on a non-string raises
AttributeError in Python. -/
def pySplitLast (j : Json) : Except String String :=
  match j with
  | .str s => .ok (lastSegment s)
  | _ => .error "AttributeError"

/-- Embeds `extract_citynames(data)` from `src/query_wikidata.py`:
returns `[]` for `None`/falsy input, otherwise descends into
`data['results']['bindings']` and maps both comprehensions in order. -/
def extract_citynames (data : Option Json) : Except String (List String) :=
  match data with
  | none => .ok []
  | some d =>
    if pyFalsy d then .ok []
    else
      match dictGet d "results" with
      | .error e => .error e
      | .ok results =>
        match dictGet results "bindings" with
        | .error e => .error e
        | .ok bindings =>
          match pyIter bindings with
          | .error e => .error e
          | .ok items =>
            match mapExcept bindingLink items with
            | .error e => .error e
            | .ok links =>
              match mapExcept pySplitLast links with
              | .error e => .error e
              | .ok citynames => .ok citynames

/-- Severity of an emitted log event. -/
inductive LogLevel where
  | info
  | warning
  | error
deriving DecidableEq

/-- One logger call (`logger.info` / `logger.warning` / `logger.error`). -/
structure LogEvent where
  level : LogLevel
  msg : String
deriving DecidableEq

/-- Outcome of the single blocking `requests.get` in
`fetch_citynames_for_language`: a raised `requests.RequestException`, or a
response with its `ok` flag and JSON-decoded body (`none` when the body is
not valid JSON; with requests at least 2.27 that decode failure is itself a
`RequestException` and is caught by the same handler). -/
inductive HttpOutcome where
  | exc (e : String)
  | resp (ok : Bool) (body : Option Json)

/-- Embeds `fetch_citynames_for_language(language_code)`: returns the
decoded body on success and `None` on any failure, logging each case. -/
def fetch_citynames_for_language (lang : String) (net : HttpOutcome) :
    Option Json × List LogEvent :=
  match net with
  | .exc e =>
    (none, [⟨.error, "Request failed for language " ++ lang ++ ": " ++ e⟩])
  | .resp ok body =>
    if ok then
      match body with
      | some d => (some d, [⟨.info, "Success: " ++ lang⟩])
      | none =>
        (none,
          [⟨.error, "Request failed for language " ++ lang ++ ": JSONDecodeError"⟩])
    else (none, [⟨.error, "Error status for language " ++ lang⟩])

/-- Output path of `save_citynames` for a language code. -/
def citynamesFilename (lang : String) : String :=
  "../data/" ++ lang ++ "_citynames.txt"

/-- Accumulated file content of the per-city `f.write` loop in
`save_citynames`: each name followed by a newline, in list order. -/
def saveContent : List String → String
  | [] => ""
  | c :: rest => c ++ "\n" ++ saveContent rest

/-- Embeds `save_citynames(language_code, cityname_list)`: on a working
filesystem it writes the whole file once; an `IOError` while opening or
writing is caught and logged. Returns the write trace and the log events. -/
def save_citynames (lang : String) (citynames : List String)
    (fsExc : Option String) : List (String × String) × List LogEvent :=
  match fsExc with
  | some e =>
    ([], [⟨.error, "Failed to save city names: " ++ e⟩])
  | none =>
    ([(citynamesFilename lang, saveContent citynames)],
      [⟨.info, "City names saved"⟩])

/-- Log event opening `process_citynames_for_language`. -/
def queryLogEvent (lang : String) : LogEvent :=
  ⟨.info, "Querying Wikidata for language: " ++ lang⟩

/-- Warning logged by `process_citynames_for_language` when no names come
back from the query. -/
def noNamesWarning (lang : String) : LogEvent :=
  ⟨.warning, "No city names found for language " ++ lang⟩

/-- Embeds `process_citynames_for_language(language_code)`: fetch, extract,
then either save (non-empty list) or warn (empty list). An exception from
`extract_citynames` propagates to the caller as `.error`. -/
def process_citynames_for_language (lang : String) (net : HttpOutcome)
    (fsExc : Option String) :
    Except String (List (String × String) × List LogEvent) :=
  let fr := fetch_citynames_for_language lang net
  match extract_citynames fr.1 with
  | .error e => .error e
  | .ok citynames =>
    if citynames.isEmpty then
      .ok ([], queryLogEvent lang :: fr.2 ++ [noNamesWarning lang])
    else
      let sr := save_citynames lang citynames fsExc
      .ok (sr.1, queryLogEvent lang :: fr.2 ++ sr.2)

/-- Canonical shape of a successful graph-query response carrying the given
article URLs, as described by the SPARQL endpoint interface:
`results.bindings` is a list of items each holding `article.value`. -/
def mkGraphResponse (urls : List String) : Json :=
  .obj [("results", .obj [("bindings",
    .arr (urls.map (fun u => Json.obj [("article", Json.obj [("value", Json.str u)])])))])]

example : extract_citynames (some (mkGraphResponse ["https://en.wikipedia.org/wiki/Paris"]))
    = .ok ["Paris"] := rfl

example : extract_citynames none = .ok [] := rfl

example : extract_citynames (some (Json.obj [("foo", Json.null)])) = .error "KeyError" := rfl

/-! Embedding of `src/extract_wikipedia.py`. -/

/-- Splits a character stream the way Python's `readlines` does: after every
newline character, keeping the newline on each produced line; a trailing
piece without a newline is kept as a final line. -/
def readlinesAux : List Char → List Char → List (List Char)
  | [], [] => []
  | [], acc => [acc.reverse]
  | c :: rest, acc =>
    if c = '\n' then (acc.reverse ++ ['\n']) :: readlinesAux rest []
    else readlinesAux rest (c :: acc)

/-- Python `txt_file.readlines()` on the full file content. -/
def pyReadlines (content : String) : List String :=
  (readlinesAux content.toList []).map (fun cs => String.mk cs)

/-- Python `c.replace('\n', '')`: removes every newline character. -/
def removeNewlines (s : String) : String :=
  String.mk (s.toList.filter (fun c => c != '\n'))

/-- Embeds `read_txt(src)` from `src/extract_wikipedia.py`, applied to the
content of the file at `src`: `readlines` then strip newlines per row. -/
def read_txt (content : String) : List String :=
  (pyReadlines content).map removeNewlines

/-- Filesystem behaviour seen by one `scrape` call: a raised exception in
`os.makedirs` and a raised exception in `open` inside `to_file`, when set. -/
structure FsEnv where
  makedirsExc : Option String
  openExc : Option String

/-- Python `path.endswith('.txt')`. -/
def endsWithTxt (path : String) : Bool :=
  path.toList.reverse.take 4 == ['t', 'x', 't', '.']

/-- Embeds `to_file(content, path, dump)` from `src/extract_wikipedia.py`.
A non-`.txt` path returns `False` (`some false`) before touching the
filesystem; otherwise the file is opened and written (`dump = true` writes
the content verbatim, `dump = false` iterates it — over a string, per
character — appending a newline each time), the post-write `os.path.isfile`
check passes, and the function falls through returning `None` (`none`).
An exception from `open` propagates. The write trace is returned. -/
def to_file (content : String) (path : String) (dump : Bool) (fs : FsEnv) :
    Except String (Option Bool × List (String × String)) :=
  if endsWithTxt path then
    match fs.openExc with
    | some e => .error e
    | none =>
      if dump then .ok (none, [(path, content)])
      else .ok (none, [(path, saveContent (content.toList.map (fun c => String.mk [c])))])
  else .ok (some false, [])

/-- Outcomes of the two possible `session.get` calls in one `scrape` call:
a raised transport exception, or the response — its body text for the
markup endpoint, and its JSON-decoded body for the extract endpoint
(`none` when the body is not valid JSON, so `response.json()` raises). -/
structure Transport where
  htmlGet : Except String String
  textGet : Except String (Option Json)

/-- Value computed inside the `try` block of plain-text `scrape`:
decode the JSON body, descend with `response.json()['query']['pages']`,
take the first page id with `list(...)[0]`, then read `['extract']`.
Any failure is an exception, caught by the bare `except`. -/
def textTryBody (parsed : Option Json) : Except String Json :=
  match parsed with
  | none => .error "JSONDecodeError"
  | some j =>
    match dictGet j "query" with
    | .error e => .error e
    | .ok q =>
      match dictGet q "pages" with
      | .error e => .error e
      | .ok pages =>
        match pages with
        | .obj fields =>
          match fields with
          | [] => .error "IndexError"
          | (k, _) :: _ =>
            match dictGet pages k with
            | .error e => .error e
            | .ok page => dictGet page "extract"
        | _ => .error "AttributeError"

/-- Per-title directory `os.path.join("../data/districts", title)`. -/
def districtsDir (title : String) : String :=
  "../data/districts/" ++ title

/-- Output path of `scrape` in html mode. -/
def htmlPath (title : String) : String :=
  districtsDir title ++ "/" ++ title ++ "_html.txt"

/-- Output path of `scrape` in text mode. -/
def textPath (title : String) : String :=
  districtsDir title ++ "/" ++ title ++ "_plain.txt"

/-- Result of one `scrape` call: its return value or raised exception, the
file writes it performed, the directories it created, and its log calls. -/
structure ScrapeOut where
  result : Except String String
  fileWrites : List (String × String)
  dirs : List String
  logs : List LogEvent

/-- Embeds `scrape(title, output_format, session, headers)` from
`src/extract_wikipedia.py`. The directory is ensured first; html mode
fetches and saves the raw body with no status check and no exception
handler; text mode computes the extract inside a bare `try`/`except`
that substitutes the empty string; any other format logs a warning and
raises `ValueError`. A non-string extract value reaches `file.write`,
which raises `TypeError` after `open` has truncated the file. -/
def scrape (title : String) (output_format : String) (tr : Transport)
    (fs : FsEnv) : ScrapeOut :=
  match fs.makedirsExc with
  | some e => ⟨.error e, [], [], []⟩
  | none =>
    if output_format = "html" then
      match tr.htmlGet with
      | .error e => ⟨.error e, [], [districtsDir title], []⟩
      | .ok body =>
        match to_file body (htmlPath title) true fs with
        | .error e => ⟨.error e, [], [districtsDir title], []⟩
        | .ok (_, ws) => ⟨.ok body, ws, [districtsDir title], []⟩
    else if output_format = "text" then
      let respVal : Json :=
        match tr.textGet with
        | .error _ => .str ""
        | .ok parsed =>
          match textTryBody parsed with
          | .error _ => .str ""
          | .ok v => v
      match respVal with
      | .str s =>
        match to_file s (textPath title) true fs with
        | .error e => ⟨.error e, [], [districtsDir title], []⟩
        | .ok (_, ws) => ⟨.ok s, ws, [districtsDir title], []⟩
      | _ =>
        match fs.openExc with
        | some e => ⟨.error e, [], [districtsDir title], []⟩
        | none => ⟨.error "TypeError", [(textPath title, "")], [districtsDir title], []⟩
    else
      ⟨.error "Output format not valid!", [], [districtsDir title],
        [⟨.warning, "Output format not valid!"⟩]⟩

/-- Result of a whole `run` batch: the collected responses or the first
raised exception (which aborts the batch), with the accumulated file
writes and directories. -/
structure RunOut where
  result : Except String (List String)
  fileWrites : List (String × String)
  dirs : List String

/-- Embeds `run(citydistlist, output_format, headers, rate_limit)` from
`src/extract_wikipedia.py`: `aiometer.run_on_each` applies `scrape` to
every name and an exception raised by any task aborts the whole batch;
with an empty list it completes at once with no results. The admission
throttle affects only timing, not which calls happen, so the batch is
modelled as the sequence of per-name `scrape` outcomes. -/
def runModel (citydistlist : List String) (output_format : String)
    (tr : String → Transport) (fs : FsEnv) : RunOut :=
  match citydistlist with
  | [] => ⟨.ok [], [], []⟩
  | n :: rest =>
    let o := scrape n output_format (tr n) fs
    match o.result with
    | .error e => ⟨.error e, o.fileWrites, o.dirs⟩
    | .ok r =>
      let ro := runModel rest output_format tr fs
      match ro.result with
      | .error e => ⟨.error e, o.fileWrites ++ ro.fileWrites, o.dirs ++ ro.dirs⟩
      | .ok rs => ⟨.ok (r :: rs), o.fileWrites ++ ro.fileWrites, o.dirs ++ ro.dirs⟩

/-- Python list slicing `l[:n]` for an integer bound: a nonnegative bound
keeps the first `n` elements, a negative bound drops the last `-n`. -/
def pySliceTo (l : List String) (n : Int) : List String :=
  if 0 ≤ n then l.take n.toNat else l.take (l.length - (-n).toNat)

/-- Embeds lines 170-171 of `main`: `if test_n: citydistlist =
citydistlist[:test_n]`. Both `None` and `0` are falsy, so the slice is
skipped for them. -/
def truncateList (citydistlist : List String) (test_n : Option Int) : List String :=
  match test_n with
  | none => citydistlist
  | some n => if n = 0 then citydistlist else pySliceTo citydistlist n

/-- The list of names `main` hands to `run`: the input file parsed by
`read_txt`, then the optional truncation. -/
def mainProcessedList (fileContent : String) (test_n : Option Int) : List String :=
  truncateList (read_txt fileContent) test_n

example : read_txt "Paris\nLyon\n" = ["Paris", "Lyon"] := rfl

example : read_txt "" = [] := rfl

example : mainProcessedList "a\n" (some 0) = ["a"] := rfl

example : (scrape "Lyon" "text" ⟨.ok "", .ok none⟩ ⟨none, none⟩).result = .ok "" := rfl

example : (scrape "Paris" "html" ⟨.error "ConnectError", .ok none⟩ ⟨none, none⟩).result
    = .error "ConnectError" := rfl

/-! Helper lemmas about strings and the split model. -/

theorem toList_append (s t : String) : (s ++ t).toList = s.toList ++ t.toList := by
  cases s
  cases t
  rfl

theorem mk_toList (s : String) : String.mk s.toList = s := by
  cases s
  rfl

theorem pySplitChar_ne_nil (sep : Char) (cs : List Char) : pySplitChar sep cs ≠ [] := by
  induction cs with
  | nil => simp [pySplitChar]
  | cons c rest ih =>
    simp only [pySplitChar]
    split
    · simp
    · split
      · simp
      · simp

theorem pySplitChar_of_not_mem (sep : Char) (r : List Char) (h : sep ∉ r) :
    pySplitChar sep r = [r] := by
  induction r with
  | nil => rfl
  | cons c rest ih =>
    simp only [List.mem_cons, not_or] at h
    obtain ⟨h1, h2⟩ := h
    simp only [pySplitChar]
    rw [if_neg (fun hc => h1 hc.symm), ih h2]

theorem pySplitChar_append (sep : Char) (t r : List Char) :
    pySplitChar sep (t ++ sep :: r) = pySplitChar sep t ++ pySplitChar sep r := by
  induction t with
  | nil => simp [pySplitChar]
  | cons c t ih =>
    rcases h' : pySplitChar sep t with _ | ⟨l, ls⟩
    · exact absurd h' (pySplitChar_ne_nil sep t)
    · by_cases hc : c = sep
      · subst hc
        simp [List.cons_append, pySplitChar, ih]
      · simp [List.cons_append, pySplitChar, hc, ih, h']

theorem getLastD_default_irrel {α : Type} (B : List α) (hB : B ≠ []) (d₁ d₂ : α) :
    B.getLastD d₁ = B.getLastD d₂ := by
  cases B with
  | nil => exact absurd rfl hB
  | cons b B => rw [List.getLastD_cons, List.getLastD_cons]

theorem getLastD_append {α : Type} (A B : List α) (hB : B ≠ []) (d : α) :
    (A ++ B).getLastD d = B.getLastD d := by
  induction A generalizing d with
  | nil => rfl
  | cons a A ih =>
    rw [List.cons_append, List.getLastD_cons, ih a, getLastD_default_irrel B hB a d]

theorem lastSegment_after_last_slash (u : String) (t r : List Char)
    (hu : u.toList = t ++ '/' :: r) (hr : '/' ∉ r) :
    lastSegment u = String.mk r := by
  unfold lastSegment
  rw [hu, pySplitChar_append, pySplitChar_of_not_mem _ _ hr,
    getLastD_append _ _ (by simp) []]
  rfl

/-! Round-trip lemmas: the readlines model versus the per-name write loop. -/

theorem readlinesAux_line (l rest acc : List Char) (h : '\n' ∉ l) :
    readlinesAux (l ++ '\n' :: rest) acc
      = (acc.reverse ++ l ++ ['\n']) :: readlinesAux rest [] := by
  induction l generalizing acc with
  | nil => simp [readlinesAux]
  | cons c l ih =>
    simp only [List.mem_cons, not_or] at h
    obtain ⟨h1, h2⟩ := h
    rw [List.cons_append]
    simp only [readlinesAux]
    rw [if_neg (fun hc => h1 hc.symm), ih (c :: acc) h2]
    simp

theorem saveContent_cons_toList (n : String) (names : List String) :
    (saveContent (n :: names)).toList = n.toList ++ '\n' :: (saveContent names).toList := by
  show (n ++ "\n" ++ saveContent names).toList = _
  rw [toList_append, toList_append]
  simp

theorem removeNewlines_line (n : String) (h : '\n' ∉ n.toList) :
    removeNewlines (String.mk (n.toList ++ ['\n'])) = n := by
  unfold removeNewlines
  rw [show (String.mk (n.toList ++ ['\n'])).toList = n.toList ++ ['\n'] from rfl,
    List.filter_append]
  have h1 : n.toList.filter (fun c => c != '\n') = n.toList :=
    List.filter_eq_self.mpr (fun a ha => by
      simp only [bne_iff_ne, ne_eq, decide_eq_true_eq]
      exact fun hEq => h (hEq ▸ ha))
  rw [h1, show List.filter (fun c => c != '\n') ['\n'] = [] from rfl, List.append_nil,
    mk_toList]

theorem read_txt_saveContent (names : List String)
    (h : ∀ n ∈ names, '\n' ∉ n.toList) :
    read_txt (saveContent names) = names := by
  induction names with
  | nil => rfl
  | cons n names ih =>
    have hn : '\n' ∉ n.toList := h n (by simp)
    have hrest : ∀ m ∈ names, '\n' ∉ m.toList := fun m hm => h m (by simp [hm])
    unfold read_txt pyReadlines
    rw [saveContent_cons_toList, readlinesAux_line _ _ _ hn]
    simp only [List.map_cons, List.reverse_nil, List.nil_append]
    rw [removeNewlines_line n hn]
    have ihe : ((readlinesAux (saveContent names).toList []).map
        (fun cs => String.mk cs)).map removeNewlines = names := ih hrest
    rw [ihe]

/-! Lemmas about city-name extraction from the canonical response shape. -/

theorem mapExcept_bindingLink (urls : List String) :
    mapExcept bindingLink
        (urls.map (fun u => Json.obj [("article", Json.obj [("value", Json.str u)])]))
      = .ok (urls.map Json.str) := by
  induction urls with
  | nil => rfl
  | cons u urls ih =>
    simp only [List.map_cons, mapExcept]
    rw [show bindingLink (Json.obj [("article", Json.obj [("value", Json.str u)])])
      = Except.ok (Json.str u) from rfl, ih]

theorem mapExcept_pySplitLast (links : List String) :
    mapExcept pySplitLast (links.map Json.str) = .ok (links.map lastSegment) := by
  induction links with
  | nil => rfl
  | cons u links ih =>
    simp only [List.map_cons, mapExcept]
    rw [show pySplitLast (Json.str u) = Except.ok (lastSegment u) from rfl, ih]

theorem extract_mkGraphResponse (urls : List String) :
    extract_citynames (some (mkGraphResponse urls)) = .ok (urls.map lastSegment) := by
  have step : extract_citynames (some (mkGraphResponse urls)) =
      (match mapExcept bindingLink
          (urls.map (fun u => Json.obj [("article", Json.obj [("value", Json.str u)])])) with
        | .error e => .error e
        | .ok links =>
          match mapExcept pySplitLast links with
          | .error e => .error e
          | .ok citynames => .ok citynames) := rfl
  rw [step, mapExcept_bindingLink urls]
  simp only []
  rw [mapExcept_pySplitLast urls]

/-! Lemmas about the output paths of scrape. -/

theorem endsWithTxt_append_plain (s : String) : endsWithTxt (s ++ "_plain.txt") = true := by
  unfold endsWithTxt
  rw [toList_append, List.reverse_append,
    List.take_append_of_le_length (by decide :
      (4 : ℕ) ≤ ("_plain.txt").toList.reverse.length)]
  rfl

theorem endsWithTxt_append_html (s : String) : endsWithTxt (s ++ "_html.txt") = true := by
  unfold endsWithTxt
  rw [toList_append, List.reverse_append,
    List.take_append_of_le_length (by decide :
      (4 : ℕ) ≤ ("_html.txt").toList.reverse.length)]
  rfl

theorem endsWithTxt_textPath (title : String) : endsWithTxt (textPath title) = true :=
  endsWithTxt_append_plain (districtsDir title ++ "/" ++ title)

theorem endsWithTxt_htmlPath (title : String) : endsWithTxt (htmlPath title) = true :=
  endsWithTxt_append_html (districtsDir title ++ "/" ++ title)

theorem process_eq (lang : String) (net : HttpOutcome) (fsExc : Option String) :
    process_citynames_for_language lang net fsExc
      = match extract_citynames (fetch_citynames_for_language lang net).1 with
        | .error e => .error e
        | .ok citynames =>
          if citynames.isEmpty then
            .ok ([], queryLogEvent lang :: (fetch_citynames_for_language lang net).2
              ++ [noNamesWarning lang])
          else
            .ok ((save_citynames lang citynames fsExc).1,
              queryLogEvent lang :: (fetch_citynames_for_language lang net).2
                ++ (save_citynames lang citynames fsExc).2) := rfl

/-! Claim theorems. -/

/-- C1: for every successful graph-query response with a non-empty list of
bindings, the Name Resolver writes exactly one line per binding to the
output file, in binding order, each line being the substring of that
binding's article URL after its last slash (no decoding or other
transformation): the single file write holds the extracted names one per
line, reading those lines back yields the names in binding order, and each
extracted name is the suffix after the last slash of its URL. -/
theorem nameResolver_one_line_per_binding (lang : String) (urls : List String)
    (hne : urls ≠ [])
    (hnl : ∀ u ∈ urls, '\n' ∉ (lastSegment u).toList) :
    (∃ logs, process_citynames_for_language lang
        (.resp true (some (mkGraphResponse urls))) none
      = .ok ([(citynamesFilename lang, saveContent (urls.map lastSegment))], logs))
    ∧ read_txt (saveContent (urls.map lastSegment)) = urls.map lastSegment
    ∧ ∀ u ∈ urls, ∀ t r, u.toList = t ++ '/' :: r → '/' ∉ r →
        lastSegment u = String.mk r := by
  refine ⟨?_, ?_, ?_⟩
  · refine ⟨queryLogEvent lang :: [⟨.info, "Success: " ++ lang⟩]
      ++ [⟨.info, "City names saved"⟩], ?_⟩
    rw [process_eq, show (fetch_citynames_for_language lang
        (.resp true (some (mkGraphResponse urls)))).1
      = some (mkGraphResponse urls) from rfl]
    rw [extract_mkGraphResponse urls]
    cases urls with
    | nil => exact absurd rfl hne
    | cons u us => rfl
  · exact read_txt_saveContent (urls.map lastSegment)
      (fun n hn => by
        obtain ⟨u, hu, rfl⟩ := List.mem_map.mp hn
        exact hnl u hu)
  · exact fun u _ t r h1 h2 => lastSegment_after_last_slash u t r h1 h2

/-- Witness for C1 at a concrete URL list. -/
theorem nameResolver_one_line_per_binding_witness :
    read_txt (saveContent ((["https://en.wikipedia.org/wiki/Paris"]).map lastSegment))
      = ["https://en.wikipedia.org/wiki/Paris"].map lastSegment :=
  (nameResolver_one_line_per_binding "en" ["https://en.wikipedia.org/wiki/Paris"]
    (by decide) (by decide)).2.1

/-- C2: in plain-text output mode, for every name whose response body fails
JSON parsing or lacks the expected query/pages/page-id/extract nesting, the
per-name Fetch Result produced and persisted by scrape is the empty string,
with no exception escaping and nothing logged. -/
theorem scrape_text_parse_failure_empty (title : String) (tr : Transport)
    (fs : FsEnv) (parsed : Option Json) (e : String)
    (hmk : fs.makedirsExc = none) (hop : fs.openExc = none)
    (hget : tr.textGet = .ok parsed)
    (hfail : textTryBody parsed = .error e) :
    scrape title "text" tr fs
      = ⟨.ok "", [(textPath title, "")], [districtsDir title], []⟩ := by
  obtain ⟨mkE, opE⟩ := fs
  simp only at hmk hop
  subst hmk
  subst hop
  simp [scrape, hget, hfail, to_file, endsWithTxt_textPath]

/-- Witness for C2: a mocked extract response with an unparseable body. -/
theorem scrape_text_parse_failure_empty_witness :
    scrape "Lyon" "text" ⟨Except.ok "", Except.ok none⟩ ⟨none, none⟩
      = ⟨Except.ok "", [(textPath "Lyon", "")], [districtsDir "Lyon"], []⟩ :=
  scrape_text_parse_failure_empty "Lyon" _ _ none "JSONDecodeError" rfl rfl rfl rfl

/-- C3 counterexample: in html mode a transport exception escapes the
per-name scrape call, so it is false that for every recognized output mode
no exception can escape regardless of transport outcomes. -/
theorem scrape_html_transport_error_escapes :
    (scrape "Paris" "html" ⟨Except.error "ConnectError", Except.ok none⟩
        ⟨none, none⟩).result
      = Except.error "ConnectError" := rfl

/-- Reports whether the extract-endpoint outcome can only hand scrape a
string (or fail): the bare except protects everything up to the extract
lookup, but a located non-string extract value would reach file.write. -/
def extractFieldStringlike (tg : Except String (Option Json)) : Bool :=
  match tg with
  | .error _ => true
  | .ok parsed =>
    match textTryBody parsed with
    | .error _ => true
    | .ok (.str _) => true
    | .ok _ => false

/-- C3 amended: in plain-text mode, when the filesystem calls succeed and
any successfully located extract field is a string, no exception escapes
the per-name scrape call (transport and parse failures degrade to the
empty string); in html mode a transport error escapes per-name processing,
and an invalid output mode raises the fatal configuration error. -/
theorem scrape_text_no_exception (title : String) (tr : Transport) (fs : FsEnv)
    (hmk : fs.makedirsExc = none) (hop : fs.openExc = none)
    (hwt : extractFieldStringlike tr.textGet = true) :
    ∃ s, (scrape title "text" tr fs).result = Except.ok s := by
  obtain ⟨mkE, opE⟩ := fs
  simp only at hmk hop
  subst hmk
  subst hop
  cases hget : tr.textGet with
  | error e =>
    exact ⟨"", by simp [scrape, hget, to_file, endsWithTxt_textPath]⟩
  | ok parsed =>
    rw [hget] at hwt
    rw [show extractFieldStringlike (Except.ok parsed)
        = (match textTryBody parsed with
            | .error _ => true
            | .ok (.str _) => true
            | .ok _ => false) from rfl] at hwt
    cases hfail : textTryBody parsed with
    | error e =>
      exact ⟨"", by simp [scrape, hget, hfail, to_file, endsWithTxt_textPath]⟩
    | ok v =>
      rw [hfail] at hwt
      cases v with
      | str s =>
        exact ⟨s, by simp [scrape, hget, hfail, to_file, endsWithTxt_textPath]⟩
      | null => exact Bool.noConfusion hwt
      | bool b => exact Bool.noConfusion hwt
      | arr items => exact Bool.noConfusion hwt
      | obj fields => exact Bool.noConfusion hwt

/-- Witness for the amended C3 at a concrete well-shaped extract response. -/
theorem scrape_text_no_exception_witness :
    ∃ s, (scrape "Paris" "text"
        ⟨Except.ok "", Except.ok (some (Json.obj [("query", Json.obj [("pages",
          Json.obj [("1", Json.obj [("extract",
            Json.str "Paris is the capital")])])])]))⟩
        ⟨none, none⟩).result = Except.ok s :=
  scrape_text_no_exception "Paris" _ _ rfl rfl rfl

/-- C4 counterexample: a successful response whose JSON body lacks the
expected results field makes the pipeline raise a KeyError out of
extract_citynames instead of degrading to an empty Name List. -/
theorem process_missing_fields_raises :
    process_citynames_for_language "en"
        (HttpOutcome.resp true (some (Json.obj [("foo", Json.null)]))) none
      = Except.error "KeyError" := rfl

/-- C4 amended: for every failed graph query with a non-success HTTP
status, a network error, or an unparseable response body — the cases where
the fetch step returns no data — the fetch-then-extract pipeline yields an
empty Name List with the failure logged and nothing raised; a parseable
response missing the expected fields instead raises an uncaught KeyError. -/
theorem fetch_failure_empty_list_logged (lang : String) (net : HttpOutcome)
    (fsExc : Option String)
    (h : (fetch_citynames_for_language lang net).1 = none) :
    process_citynames_for_language lang net fsExc
      = .ok ([], queryLogEvent lang :: (fetch_citynames_for_language lang net).2
          ++ [noNamesWarning lang])
    ∧ ∃ ev ∈ (fetch_citynames_for_language lang net).2,
        ev.level = LogLevel.error := by
  cases net with
  | exc e =>
    exact ⟨rfl, ⟨⟨.error, "Request failed for language " ++ lang ++ ": " ++ e⟩,
      by simp [fetch_citynames_for_language], rfl⟩⟩
  | resp ok body =>
    cases ok with
    | true =>
      cases body with
      | some d => exact absurd h (by simp [fetch_citynames_for_language])
      | none =>
        exact ⟨rfl, ⟨⟨.error,
            "Request failed for language " ++ lang ++ ": JSONDecodeError"⟩,
          by simp [fetch_citynames_for_language], rfl⟩⟩
    | false =>
      exact ⟨rfl, ⟨⟨.error, "Error status for language " ++ lang⟩,
        by simp [fetch_citynames_for_language], rfl⟩⟩

/-- Witness for the amended C4 at a concrete network error. -/
theorem fetch_failure_empty_list_logged_witness :
    process_citynames_for_language "en" (HttpOutcome.exc "Timeout") none
      = .ok ([], queryLogEvent "en"
          :: (fetch_citynames_for_language "en" (HttpOutcome.exc "Timeout")).2
          ++ [noNamesWarning "en"]) :=
  (fetch_failure_empty_list_logged "en" (HttpOutcome.exc "Timeout") none rfl).1

/-- C5 counterexample: with an empty Name List the batch completes normally
even under the unrecognized output mode "xml", so it is false that for
every Name List the run aborts. -/
theorem run_empty_list_no_abort :
    (runModel [] "xml" (fun _ => ⟨Except.ok "", Except.ok none⟩) ⟨none, none⟩).result
      = Except.ok [] := rfl

/-- C5 amended: for every non-empty Name List and every output mode other
than html and text, the Article Fetcher batch aborts with the descriptive
invalid-format failure and creates no output file for any name. -/
theorem run_invalid_format_aborts (citydistlist : List String)
    (output_format : String) (tr : String → Transport) (fs : FsEnv)
    (hne : citydistlist ≠ [])
    (h1 : output_format ≠ "html") (h2 : output_format ≠ "text")
    (hmk : fs.makedirsExc = none) :
    (runModel citydistlist output_format tr fs).result
        = Except.error "Output format not valid!"
    ∧ (runModel citydistlist output_format tr fs).fileWrites = [] := by
  cases citydistlist with
  | nil => exact absurd rfl hne
  | cons n rest =>
    have hs : scrape n output_format (tr n) fs
        = ⟨.error "Output format not valid!", [], [districtsDir n],
            [⟨.warning, "Output format not valid!"⟩]⟩ := by
      obtain ⟨mkE, opE⟩ := fs
      simp only at hmk
      subst hmk
      unfold scrape
      rw [if_neg h1, if_neg h2]
    constructor
    · simp [runModel, hs]
    · simp [runModel, hs]

/-- Witness for the amended C5 at a concrete one-name list and mode xml. -/
theorem run_invalid_format_aborts_witness :
    (runModel ["Paris"] "xml" (fun _ => ⟨Except.ok "", Except.ok none⟩)
        ⟨none, none⟩).result = Except.error "Output format not valid!"
    ∧ (runModel ["Paris"] "xml" (fun _ => ⟨Except.ok "", Except.ok none⟩)
        ⟨none, none⟩).fileWrites = [] :=
  run_invalid_format_aborts ["Paris"] "xml" _ _ (by decide) (by decide)
    (by decide) rfl

/-- C6: for every graph-query outcome whose extracted name list is empty,
process_citynames_for_language performs no output-file write at all — the
save step is never reached — and the only log event it adds beyond the
opening info line and the fetch step's own logging is the warning. -/
theorem process_empty_result_no_write (lang : String) (net : HttpOutcome)
    (fsExc : Option String)
    (h : extract_citynames (fetch_citynames_for_language lang net).1 = .ok []) :
    process_citynames_for_language lang net fsExc
      = .ok ([], queryLogEvent lang :: (fetch_citynames_for_language lang net).2
          ++ [noNamesWarning lang]) := by
  rw [process_eq, h]
  rfl

/-- Witness for C6: a successful query whose body is not decodable JSON,
so the extracted list is empty. -/
theorem process_empty_result_no_write_witness :
    process_citynames_for_language "en" (HttpOutcome.resp true none) none
      = .ok ([], queryLogEvent "en"
          :: (fetch_citynames_for_language "en" (HttpOutcome.resp true none)).2
          ++ [noNamesWarning "en"]) :=
  process_empty_result_no_write "en" (HttpOutcome.resp true none) none rfl

/-- C7: round-trip — for every list of names containing no newline
characters, writing the list one name per line as save_citynames does and
reading the file content back with read_txt yields the original ordered
sequence of names. -/
theorem save_read_roundtrip (lang : String) (citynames : List String)
    (h : ∀ n ∈ citynames, '\n' ∉ n.toList) :
    (save_citynames lang citynames none).1
        = [(citynamesFilename lang, saveContent citynames)]
    ∧ read_txt (saveContent citynames) = citynames :=
  ⟨rfl, read_txt_saveContent citynames h⟩

/-- Witness for C7 at a concrete two-name list. -/
theorem save_read_roundtrip_witness :
    (save_citynames "en" ["Paris", "Lyon"] none).1
        = [(citynamesFilename "en", saveContent ["Paris", "Lyon"])]
    ∧ read_txt (saveContent ["Paris", "Lyon"]) = ["Paris", "Lyon"] :=
  save_read_roundtrip "en" ["Paris", "Lyon"] (by decide)

/-- C8 counterexample: with truncation count 0 the guard is falsy and the
slice is skipped, so the whole list is processed rather than the empty
length-0 prefix the claim requires. -/
theorem main_truncation_zero_counterexample :
    mainProcessedList "a\n" (some 0) = ["a"]
    ∧ mainProcessedList "a\n" (some 0) ≠ (read_txt "a\n").take 0 := by
  constructor
  · rfl
  · decide

/-- C8 amended: for every positive truncation count n the Article Fetcher
processes exactly the first n names of the list (the length-n prefix),
while a count of 0 — like an omitted count — is falsy and leaves the whole
list to be processed. -/
theorem main_truncation (fileContent : String) (n : Int) :
    (0 < n → mainProcessedList fileContent (some n)
        = (read_txt fileContent).take n.toNat)
    ∧ mainProcessedList fileContent (some 0) = read_txt fileContent
    ∧ mainProcessedList fileContent none = read_txt fileContent := by
  refine ⟨fun hn => ?_, rfl, rfl⟩
  show (if n = 0 then read_txt fileContent
    else pySliceTo (read_txt fileContent) n) = _
  rw [if_neg (by omega : ¬ n = 0)]
  unfold pySliceTo
  rw [if_pos (le_of_lt hn)]

/-- Witness for the amended C8 at a concrete three-line file and count 2. -/
theorem main_truncation_witness :
    mainProcessedList "a\nb\nc\n" (some 2)
      = (read_txt "a\nb\nc\n").take (Int.toNat 2) :=
  (main_truncation "a\nb\nc\n" 2).1 (by decide)

/-- C10: for every content value, dump flag, filesystem state and
destination path that does not end with the suffix ".txt", to_file returns
False without raising and creates or modifies no file. -/
theorem to_file_non_txt_no_write (content path : String) (dump : Bool)
    (fs : FsEnv) (h : endsWithTxt path = false) :
    to_file content path dump fs = .ok (some false, []) := by
  unfold to_file
  rw [h]
  rfl

/-- Witness for C10 at a concrete non-txt path. -/
theorem to_file_non_txt_no_write_witness :
    to_file "hello" "out.md" true ⟨none, none⟩ = .ok (some false, []) :=
  to_file_non_txt_no_write "hello" "out.md" true ⟨none, none⟩ rfl

end WikipediaExtractor
